import Mathlib

/-!
Verification of the handler-dispatch registry and message-integrity bootstrap
of the OpenADR VTN server (`openleadr/server.py`).

The embedding models the Python state that the source manipulates:

* the five service classes plus their common base `VTNService`, each with a
  class-attribute dictionary (Python class `__dict__`), modelled as one
  association list keyed by (class, attribute name) where the most recent
  entry for a key shadows older ones — exactly the effect of `setattr`;
* `OpenADRServer._MAP`, the fixed catalogue mapping handler names to the
  owning service class;
* `OpenADRServer.add_handler`, which validates the name against `_MAP` and
  performs `setattr(self._MAP[name], name, staticmethod(func))`, or raises a
  `NameError` naming the offender and the legal names;
* `OpenADRServer.__init__`, which builds the services dict, registers one
  POST route per service at `/OpenADR2/Simple/2.0b/<service name>`, reads and
  fingerprints the certificate when both `cert` and `key` are truthy, and
  patches `VTNService._create_message` / `VTNService._parse_message` with
  partial applications of the codec functions;
* CPython attribute semantics where a claim depends on them: special methods
  such as `__setattr__` are looked up on the type, never on the instance, and
  a `staticmethod` stored on a class yields the wrapped function on access.

Handlers (Python callables) are identified by opaque numeric identifiers;
file contents, fingerprints and service names are strings. The file system is
a map from path to optional contents, so a failed `open` is representable.
-/

/-- Opaque identity of a Python callable (a handler function). Python
compares bound handlers by object identity, which the identifier models. -/
abbrev Handler := Nat

/-- The Python classes of `openleadr.service` that `server.py` manipulates:
the five service classes and their common base `VTNService`. The subclass
relation is taken from the import in `server.py` and the spec, which calls
`VTNService` the common base of every service area. -/
inductive PyClass where
  | event
  | report
  | poll
  | opt
  | registration
  | vtnService
  deriving DecidableEq, Repr

/-- The parent class for single-inheritance attribute lookup: each service
class inherits from `VTNService`; `VTNService` has no relevant base. -/
def pyBase : PyClass → Option PyClass
  | .event => some .vtnService
  | .report => some .vtnService
  | .poll => some .vtnService
  | .opt => some .vtnService
  | .registration => some .vtnService
  | .vtnService => none

/-- The bound-argument record of
`partial(create_message, cert=cert, key=key, passphrase=passphrase)`:
the values frozen into the partial when `__init__` runs. -/
structure CreateMessageBinding where
  cert : Option String
  key : Option String
  passphrase : Option String
  deriving DecidableEq, Repr, Inhabited

/-- The bound-argument record of
`partial(parse_message, fingerprint_lookup=fingerprint_lookup)`. The lookup
callable, when supplied, is an opaque identifier. -/
structure ParseMessageBinding where
  fingerprintLookup : Option Nat
  deriving DecidableEq, Repr, Inhabited

/-- A value stored in a class-attribute dictionary. `smethod h` is
`staticmethod(h)` as stored by `add_handler`; `defaultMethod nm` is the
built-in placeholder implementation a service class ships for extension
point `nm`; the two binding constructors are the codec partials patched onto
`VTNService`. -/
inductive PyVal where
  | smethod (h : Handler)
  | defaultMethod (nm : String)
  | createBinding (b : CreateMessageBinding)
  | parseBinding (b : ParseMessageBinding)
  deriving DecidableEq, Repr

/-- The shared, process-wide class-attribute state: one association list over
all classes, keyed by (class, attribute name). `setattr` prepends, and lookup
takes the most recent entry, so newer assignments shadow older ones. -/
abbrev ClassState := List ((PyClass × String) × PyVal)

/-- The effect of `setattr(cls, name, value)` on the shared class state. -/
def setattrC (cs : ClassState) (c : PyClass) (nm : String) (v : PyVal) : ClassState :=
  ((c, nm), v) :: cs

/-- Lookup of `name` in the class `__dict__` of `c` alone (no base-class
fall-back): the most recently assigned value, if any. -/
def classLookup (cs : ClassState) (c : PyClass) (nm : String) : Option PyVal :=
  (cs.find? (fun p => p.1 == (c, nm))).map (fun p => p.2)

/-- Python class attribute lookup along the method resolution order: the
class's own `__dict__` first, then its base. -/
def getattrMRO (cs : ClassState) (c : PyClass) (nm : String) : Option PyVal :=
  match classLookup cs c nm with
  | some v => some v
  | none =>
    match pyBase c with
    | some b => classLookup cs b nm
    | none => none

/-- `OpenADRServer._MAP`: the fixed catalogue of handler names and owning
service classes, in the order of the class body of `server.py`. -/
def _MAP : List (String × PyClass) :=
  [("on_created_event", .event),
   ("on_request_event", .event),
   ("on_register_report", .report),
   ("on_create_report", .report),
   ("on_created_report", .report),
   ("on_request_report", .report),
   ("on_update_report", .report),
   ("on_poll", .poll),
   ("on_query_registration", .registration),
   ("on_create_party_registration", .registration),
   ("on_cancel_party_registration", .registration)]

/-- Membership test plus owner lookup for `_MAP`, the semantics of
`name in self._MAP` followed by `self._MAP[name]`. -/
def lookupMap (nm : String) : Option PyClass :=
  (_MAP.find? (fun p => p.1 == nm)).map (fun p => p.2)

/-- The text Python renders for `self._MAP.keys()` inside the f-string of the
`NameError`: a `dict_keys` view listing every catalogue name in insertion
order. -/
def legalNamesText : String :=
  "dict_keys([\x27" ++ String.intercalate "\x27, \x27" (_MAP.map (fun p => p.1)) ++ "\x27])"

/-- The `NameError` message
`f"Unknown handler {name}. Correct handler names are: {self._MAP.keys()}"`. -/
def errMsg (nm : String) : String :=
  "Unknown handler " ++ nm ++ ". Correct handler names are: " ++ legalNamesText

/-- The payload of a raised `NameError`. -/
structure NameErrorInfo where
  message : String
  deriving DecidableEq, Repr

/-- `OpenADRServer.add_handler(name, func)`: when `name` is in `_MAP`,
performs `setattr(self._MAP[name], name, staticmethod(func))` on the shared
class state and raises nothing; otherwise raises a `NameError` and leaves the
state exactly as it was. The pair returns the raised error (if any) together
with the resulting class state. -/
def add_handler (cs : ClassState) (nm : String) (f : Handler) :
    Option NameErrorInfo × ClassState :=
  match lookupMap nm with
  | some c => (none, setattrC cs c nm (.smethod f))
  | none => (some ⟨errMsg nm⟩, cs)

/-- Modelled from the spec: each extension point starts pre-bound to the
owning service class's built-in default implementation. The defaults live in
`openleadr/service.py`, which is not among the analysed sources; the spec
says every catalogue name is "pre-bound to a default/no-op implementation"
supplied by the owning area. -/
def initialClassState : ClassState :=
  _MAP.map (fun p => ((p.2, p.1), PyVal.defaultMethod p.1))

/-- A callable obtained by attribute access: either an operator-supplied
handler function or a built-in default implementation. -/
inductive Callable where
  | user (h : Handler)
  | builtin (nm : String)
  deriving DecidableEq, Repr

/-- Python attribute access applied to a stored class-attribute value: a
`staticmethod` descriptor yields exactly the function it wraps, a plain
method defined in the class body yields itself, and the codec bindings are
not extension-point callables. -/
def accessValue : PyVal → Option Callable
  | .smethod h => some (.user h)
  | .defaultMethod nm => some (.builtin nm)
  | .createBinding _ => none
  | .parseBinding _ => none

/-- Modelled from the spec: the ServiceRouter, on a message of type `nm`
owned by service class `c`, resolves the current binding of the extension
point through the service class and invokes it. The dispatch code lives in
`openleadr/service.py`, not among the analysed sources; service instances
keep no per-instance handler attributes, so resolution is class-attribute
lookup followed by descriptor access. -/
def dispatch (cs : ClassState) (c : PyClass) (nm : String) : Option Callable :=
  (getattrMRO cs c nm).bind accessValue

/-- Python truthiness of an optional string argument (`if cert and key:`):
`None` and the empty string are falsy, every other string is truthy. -/
def truthy : Option String → Bool
  | none => false
  | some s => !(s == "")

/-- A value stored in an instance `__dict__` of an `OpenADRServer` object. -/
inductive InstVal where
  | boundAddHandler
  | handlerVal (h : Handler)
  | other (n : Nat)
  deriving DecidableEq, Repr

/-- An `OpenADRServer` instance: its VTN id, its `services` dict (name of the
dict key and the Python class each service object instantiates) and its own
instance `__dict__`. -/
structure ServerObj where
  vtnId : String
  services : List (String × PyClass)
  instanceAttrs : List (String × InstVal)
  deriving DecidableEq, Repr, Inhabited

/-- The `services` dict built in `__init__`, in source order: event, report,
poll, opt and registration service instances. -/
def servicesList : List (String × PyClass) :=
  [("event_service", .event),
   ("report_service", .report),
   ("poll_service", .poll),
   ("opt_service", .opt),
   ("registration_service", .registration)]

/-- The five service classes, in the order of the `services` dict. -/
def serviceClasses : List PyClass :=
  [.event, .report, .poll, .opt, .registration]

/-- A Python-level error escaping `__init__`: the only failure points in the
constructor are the two `open` calls. -/
inductive PyErr where
  | ioError
  deriving DecidableEq, Repr

/-- The credential-reading block of `__init__`: when both `cert` and `key`
are truthy, read both files (propagating a failed `open`), replacing the
local variables with the file contents; otherwise leave them untouched. -/
def readCreds (cert key : Option String) (fs : String → Option String) :
    Except PyErr (Option (String × String)) :=
  if truthy cert && truthy key then
    match fs (cert.getD "") with
    | none => .error .ioError
    | some cc =>
      match fs (key.getD "") with
      | none => .error .ioError
      | some kc => .ok (some (cc, kc))
  else
    .ok none

/-- Everything observable about one `OpenADRServer.__init__` run: the
constructed instance, the shared class state after the codec patching, the
routes added to the aiohttp application, the fingerprint line printed (if
any), the file paths read, and the two partial-application records installed
on `VTNService`. -/
structure InitResult where
  server : ServerObj
  classState : ClassState
  routes : List (String × String × PyClass)
  printed : Option String
  reads : List String
  installedCreate : CreateMessageBinding
  installedParse : ParseMessageBinding
  deriving DecidableEq, Repr, Inhabited

/-- `OpenADRServer.__init__(vtn_id, cert, key, passphrase, fingerprint_lookup)`.
Parameters beyond the source signature are the ambient collaborators: `fs` is
the file system (path to contents), `cfp` is `utils.certificate_fingerprint`,
`sn` gives each service class's `__service_name__` (defined in `service.py`,
not among the analysed sources), and `cs` is the shared class state before
the call. Steps, in source order: build the services dict; register one POST
route per service at `/OpenADR2/Simple/2.0b/` + service name; when both
`cert` and `key` are truthy, read both files and print the certificate
fingerprint; patch `VTNService._create_message` and `VTNService._parse_message`
with partials over the (possibly replaced) local `cert`/`key`/`passphrase`
and `fingerprint_lookup`; finally store `self.add_handler` under the
instance attribute `__setattr__`. -/
def serverInit (vtnId : String) (cert key passphrase : Option String)
    (fingerprintLookup : Option Nat) (fs : String → Option String)
    (cfp : String → String) (sn : PyClass → String) (cs : ClassState) :
    Except PyErr InitResult :=
  match readCreds cert key fs with
  | .error e => .error e
  | .ok credRead =>
    let createB : CreateMessageBinding :=
      match credRead with
      | some p => ⟨some p.1, some p.2, passphrase⟩
      | none => ⟨cert, key, passphrase⟩
    let parseB : ParseMessageBinding := ⟨fingerprintLookup⟩
    let cs1 := setattrC cs .vtnService "_create_message" (.createBinding createB)
    let cs2 := setattrC cs1 .vtnService "_parse_message" (.parseBinding parseB)
    .ok { server := { vtnId := vtnId, services := servicesList,
                      instanceAttrs := [("__setattr__", .boundAddHandler)] },
          classState := cs2,
          routes := servicesList.map
            (fun p => ("POST", "/OpenADR2/Simple/2.0b/" ++ sn p.2, p.2)),
          printed := credRead.map (fun p => cfp p.1),
          reads := match credRead with
            | some _ => [cert.getD "", key.getD ""]
            | none => [],
          installedCreate := createB,
          installedParse := parseB }

/-- The attribute names defined by the class body of `OpenADRServer` in
`server.py`: `_MAP`, `__init__`, `run` and `add_handler`. In particular the
class body defines no `__setattr__`. -/
def openADRServerClassAttrs : List String :=
  ["_MAP", "__init__", "run", "add_handler"]

/-- The outcome of executing `server.name = value` on an `OpenADRServer`
instance: the raised error if any, the updated instance, the (possibly
updated) shared class state, and whether `add_handler` ran. -/
structure SetAttrResult where
  err : Option NameErrorInfo
  server : ServerObj
  classState : ClassState
  invokedAddHandler : Bool
  deriving DecidableEq, Repr

/-- The CPython semantics of the statement `server.name = value`: special
methods are looked up on the type, never in the instance `__dict__`, so the
interpreter consults the class body of `OpenADRServer` for `__setattr__`.
The class body defines none, so `object.__setattr__` applies: the value is
stored in the instance `__dict__` and nothing else happens. Were a custom
`__setattr__` present on the class, assignment would dispatch to it — for
this class that could only be `add_handler`, which the dead branch invokes
on the handler identity carried by the value. -/
def pySetAttr (cs : ClassState) (s : ServerObj) (nm : String) (v : InstVal) :
    SetAttrResult :=
  if openADRServerClassAttrs.contains "__setattr__" then
    let h : Handler := match v with
      | .handlerVal h => h
      | _ => 0
    let r := add_handler cs nm h
    { err := r.1, server := s, classState := r.2, invokedAddHandler := true }
  else
    { err := none,
      server := { s with instanceAttrs := (nm, v) :: s.instanceAttrs },
      classState := cs,
      invokedAddHandler := false }

/-- Decides whether `small` is a leading segment of `big` (character lists). -/
def leadsList (small big : List Char) : Bool :=
  match small, big with
  | [], _ => true
  | _ :: _, [] => false
  | a :: as, b :: bs => a == b && leadsList as bs

/-- Decides whether `small` occurs contiguously inside `big`. -/
def hasSubList (small : List Char) : List Char → Bool
  | [] => leadsList small []
  | b :: bs => leadsList small (b :: bs) || hasSubList small bs

/-- Decides whether the string `small` occurs contiguously inside `big`. -/
def strHas (big small : String) : Bool :=
  hasSubList small.data big.data

/-- Example `__service_name__` assignment used to instantiate theorems; the
real values live in `service.py`, outside the analysed sources. -/
def exSn : PyClass → String
  | .event => "EiEvent"
  | .report => "EiReport"
  | .poll => "OadrPoll"
  | .opt => "EiOpt"
  | .registration => "EiRegisterParty"
  | .vtnService => "VTN"

/-- A file system with no readable files. -/
def noFs : String → Option String :=
  fun _ => none

/-- A file system holding one certificate file and one key file. -/
def exFs : String → Option String :=
  fun p =>
    if p == "cert.pem" then some "CERTPEM"
    else if p == "key.pem" then some "KEYPEM"
    else none

/-- An example fingerprint function standing in for
`utils.certificate_fingerprint`. -/
def exCfp : String → String :=
  fun s => "fp:" ++ s

/-- Appending preserves the `data` field of strings. -/
theorem strDataAppend (a b : String) : (a ++ b).data = a.data ++ b.data := by
  cases a
  cases b
  rfl

/-- A list is a leading segment of itself followed by anything. -/
theorem leadsList_self_append (small t : List Char) :
    leadsList small (small ++ t) = true := by
  induction small with
  | nil => rfl
  | cons a as ih => simp [leadsList, ih]

/-- A list occurs inside itself followed by anything. -/
theorem hasSubList_self_append (small t : List Char) :
    hasSubList small (small ++ t) = true := by
  cases small with
  | nil =>
    cases t with
    | nil => rfl
    | cons b bs => simp [hasSubList, leadsList]
  | cons a as =>
    simp [hasSubList, List.cons_append]
    left
    have h := leadsList_self_append (a :: as) t
    simpa [List.cons_append] using h

/-- An occurrence survives prepending material on the left. -/
theorem hasSubList_append_left (small pre l : List Char)
    (h : hasSubList small l = true) :
    hasSubList small (pre ++ l) = true := by
  induction pre with
  | nil => simpa using h
  | cons b bs ih =>
    cases hbs : bs ++ l with
    | nil =>
      simp [List.cons_append, hbs, hasSubList]
      have : hasSubList small (bs ++ l) = true := ih
      rw [hbs] at this
      cases small with
      | nil => simp [leadsList]
      | cons x xs => simp [hasSubList, leadsList] at this
    | cons c cc =>
      simp [List.cons_append, hasSubList]
      right
      exact ih

/-- Looking up a different key skips a prepended class-attribute entry. -/
theorem classLookup_cons_ne (cs : ClassState) (c c0 : PyClass) (nm nm0 : String)
    (v : PyVal) (h : (c0, nm0) ≠ (c, nm)) :
    classLookup (((c0, nm0), v) :: cs) c nm = classLookup cs c nm := by
  simp [classLookup, List.find?_cons, beq_iff_eq, h]

/-- Looking up the key of a freshly prepended entry returns its value. -/
theorem classLookup_cons_eq (cs : ClassState) (c : PyClass) (nm : String)
    (v : PyVal) :
    classLookup (((c, nm), v) :: cs) c nm = some v := by
  simp [classLookup, List.find?_cons]

/-- Inversion of a successful `__init__`: the shared class state gained
exactly the two codec attributes on `VTNService` (parse shadowing nothing,
create underneath), the routes are the five service routes in order, and the
instance carries the services dict and the stored `__setattr__` attribute. -/
theorem serverInit_ok_inv (vtnId : String) (cert key pp : Option String)
    (fl : Option Nat) (fs : String → Option String) (cfp : String → String)
    (sn : PyClass → String) (cs : ClassState) (r : InitResult)
    (h : serverInit vtnId cert key pp fl fs cfp sn cs = .ok r) :
    r.classState = setattrC (setattrC cs .vtnService "_create_message"
        (.createBinding r.installedCreate)) .vtnService "_parse_message"
        (.parseBinding r.installedParse) ∧
    r.routes = servicesList.map
        (fun p => ("POST", "/OpenADR2/Simple/2.0b/" ++ sn p.2, p.2)) ∧
    r.server.services = servicesList ∧
    r.server.instanceAttrs = [("__setattr__", .boundAddHandler)] := by
  unfold serverInit at h
  cases hc : readCreds cert key fs with
  | error e =>
    rw [hc] at h
    exact absurd h (by simp)
  | ok cr =>
    rw [hc] at h
    simp only [Except.ok.injEq] at h
    subst h
    exact ⟨rfl, rfl, rfl, rfl⟩

set_option maxRecDepth 8000 in
/-- C1: for every name outside the catalogue `_MAP` and every handler,
`add_handler` raises a `NameError` whose message contains the offending name
and every legal handler name, and the shared class state is left exactly as
it was (no service-class binding changes; the method touches no server
attribute). -/
theorem addHandler_unknown_rejects (cs : ClassState) (nm : String) (f : Handler)
    (h : lookupMap nm = none) :
    (add_handler cs nm f).2 = cs ∧
    (add_handler cs nm f).1 = some ⟨errMsg nm⟩ ∧
    strHas (errMsg nm) nm = true ∧
    ∀ ℓ ∈ _MAP.map (fun p => p.1), strHas (errMsg nm) ℓ = true := by
  refine ⟨by simp [add_handler, h], by simp [add_handler, h], ?_, ?_⟩
  · unfold strHas errMsg
    rw [strDataAppend, strDataAppend, strDataAppend,
        List.append_assoc, List.append_assoc]
    exact hasSubList_append_left _ _ _ (hasSubList_self_append _ _)
  · intro l hl
    unfold strHas errMsg
    rw [strDataAppend, strDataAppend, strDataAppend]
    refine hasSubList_append_left _ _ _ ?_
    fin_cases hl <;> decide

/-- Witness for C1 at the concrete unknown name `on_bogus`: the call leaves
the pristine class state unchanged and the message mentions the offender and
(for instance) the legal name `on_poll`. -/
theorem addHandler_unknown_rejects_witness :
    lookupMap "on_bogus" = none ∧
    (add_handler initialClassState "on_bogus" 0).2 = initialClassState ∧
    (add_handler initialClassState "on_bogus" 0).1 = some ⟨errMsg "on_bogus"⟩ ∧
    strHas (errMsg "on_bogus") "on_bogus" = true ∧
    strHas (errMsg "on_bogus") "on_poll" = true := by
  have h := addHandler_unknown_rejects initialClassState "on_bogus" 0 (by decide)
  exact ⟨by decide, h.1, h.2.1, h.2.2.1, h.2.2.2 "on_poll" (by decide)⟩

/-- C2: for every catalogue name and handler `f`, `add_handler` raises
nothing, the attribute stored on the owning service class becomes
`staticmethod f` (so class attribute access yields exactly `f`), and a
subsequent dispatch of a matching message invokes `f` — never any other
handler `g`. -/
theorem addHandler_known_binds (cs : ClassState) (nm : String) (c : PyClass)
    (f g : Handler) (h : lookupMap nm = some c) :
    (add_handler cs nm f).1 = none ∧
    classLookup (add_handler cs nm f).2 c nm = some (.smethod f) ∧
    dispatch (add_handler cs nm f).2 c nm = some (.user f) ∧
    (g ≠ f → dispatch (add_handler cs nm f).2 c nm ≠ some (.user g)) := by
  have h2 : add_handler cs nm f = (none, setattrC cs c nm (.smethod f)) := by
    simp [add_handler, h]
  rw [h2]
  refine ⟨rfl, classLookup_cons_eq cs c nm _, ?_, ?_⟩
  · simp [dispatch, getattrMRO, setattrC, classLookup_cons_eq, accessValue]
  · intro hg hEq
    simp [dispatch, getattrMRO, setattrC, classLookup_cons_eq, accessValue] at hEq
    exact hg hEq.symm

/-- Witness for C2: binding `on_poll` to handler 42 on the pristine class
state stores `staticmethod 42` on `PollService` and dispatch invokes 42, not
41. -/
theorem addHandler_known_binds_witness :
    lookupMap "on_poll" = some PyClass.poll ∧
    (add_handler initialClassState "on_poll" 42).1 = none ∧
    classLookup (add_handler initialClassState "on_poll" 42).2 .poll "on_poll"
      = some (.smethod 42) ∧
    dispatch (add_handler initialClassState "on_poll" 42).2 .poll "on_poll"
      = some (.user 42) ∧
    dispatch (add_handler initialClassState "on_poll" 42).2 .poll "on_poll"
      ≠ some (.user 41) := by
  have h := addHandler_known_binds initialClassState "on_poll" .poll 42 41 (by decide)
  exact ⟨by decide, h.1, h.2.1, h.2.2.1, h.2.2.2 (by decide)⟩

/-- C9: the statement `server.name = value` is not intercepted by the
instance attribute `__setattr__` stored in `__init__`: CPython resolves
special methods on the type, the `OpenADRServer` class body defines no
`__setattr__`, so for every name (catalogue member or not) the assignment
stores an ordinary instance attribute, runs `add_handler` not at all,
performs no validation, raises nothing, and leaves every service-class
binding unchanged. -/
theorem instanceAssignmentNotIntercepted (cs : ClassState) (s : ServerObj)
    (nm : String) (v : InstVal) :
    pySetAttr cs s nm v =
      { err := none,
        server := { s with instanceAttrs := (nm, v) :: s.instanceAttrs },
        classState := cs,
        invokedAddHandler := false } := by
  rfl

/-- A key on `VTNService` differs from a service-class key whenever the
class or the attribute name differs. -/
theorem vtn_key_ne (c : PyClass) (nm0 nm : String)
    (h : c ≠ .vtnService ∨ nm0 ≠ nm) :
    (PyClass.vtnService, nm0) ≠ (c, nm) := by
  intro he
  injection he with e1 e2
  rcases h with h | h
  · exact h e1.symm
  · exact h e2

/-- Inversion of a credential read that produced file contents: the branch
was taken (both arguments truthy) and both files were readable. -/
theorem readCreds_ok_some (cert key : Option String) (fs : String → Option String)
    (p : String × String) (h : readCreds cert key fs = .ok (some p)) :
    (truthy cert && truthy key) = true ∧
    fs (cert.getD "") = some p.1 ∧ fs (key.getD "") = some p.2 := by
  unfold readCreds at h
  cases hc : (truthy cert && truthy key) with
  | false => rw [hc] at h; simp at h
  | true =>
    rw [hc] at h
    simp only [if_true] at h
    rcases hfc : fs (cert.getD "") with _ | cc
    · rw [hfc] at h; simp at h
    · rw [hfc] at h
      rcases hfk : fs (key.getD "") with _ | kc
      · rw [hfk] at h; simp at h
      · rw [hfk] at h
        simp only [Except.ok.injEq, Option.some.injEq] at h
        subst h
        exact ⟨rfl, rfl, rfl⟩

/-- Inversion of a credential read that read nothing: the guard was false. -/
theorem readCreds_ok_none (cert key : Option String) (fs : String → Option String)
    (h : readCreds cert key fs = .ok none) :
    (truthy cert && truthy key) = false := by
  unfold readCreds at h
  cases hc : (truthy cert && truthy key) with
  | false => rfl
  | true =>
    rw [hc] at h
    simp only [if_true] at h
    rcases hfc : fs (cert.getD "") with _ | cc
    · rw [hfc] at h; simp at h
    · rw [hfc] at h
      rcases hfk : fs (key.getD "") with _ | kc
      · rw [hfk] at h; simp at h
      · rw [hfk] at h; simp at h

/-- Inversion of a successful `__init__` onto its credential read: the
printed line, the file reads and the installed codec bindings are determined
by what `readCreds` returned. -/
theorem serverInit_ok_credRead (vtnId : String) (cert key pp : Option String)
    (fl : Option Nat) (fs : String → Option String) (cfp : String → String)
    (sn : PyClass → String) (cs : ClassState) (r : InitResult)
    (h : serverInit vtnId cert key pp fl fs cfp sn cs = .ok r) :
    ∃ cr, readCreds cert key fs = .ok cr ∧
      r.printed = cr.map (fun p => cfp p.1) ∧
      (r.reads = match cr with
        | some _ => [cert.getD "", key.getD ""]
        | none => []) ∧
      r.installedCreate = (match cr with
        | some p => ⟨some p.1, some p.2, pp⟩
        | none => ⟨cert, key, pp⟩) ∧
      r.installedParse = ⟨fl⟩ := by
  unfold serverInit at h
  cases hc : readCreds cert key fs with
  | error e => rw [hc] at h; simp at h
  | ok cr =>
    rw [hc] at h
    simp only [Except.ok.injEq] at h
    subst h
    exact ⟨cr, rfl, rfl, rfl, rfl, rfl⟩

/-- After the two codec attributes are patched onto `VTNService`, a service
class with no codec attribute of its own resolves both through the base. -/
theorem codec_resolves_to_base (cs : ClassState) (c : PyClass) (v1 v2 : PyVal)
    (hb : pyBase c = some .vtnService) (hcne : c ≠ .vtnService)
    (hn1 : classLookup cs c "_create_message" = none)
    (hn2 : classLookup cs c "_parse_message" = none) :
    getattrMRO (setattrC (setattrC cs .vtnService "_create_message" v1)
        .vtnService "_parse_message" v2) c "_create_message" = some v1 ∧
    getattrMRO (setattrC (setattrC cs .vtnService "_create_message" v1)
        .vtnService "_parse_message" v2) c "_parse_message" = some v2 := by
  have k1 : classLookup (setattrC (setattrC cs .vtnService "_create_message" v1)
      .vtnService "_parse_message" v2) c "_create_message"
      = classLookup cs c "_create_message" := by
    rw [setattrC, setattrC,
        classLookup_cons_ne _ _ _ _ _ _ (vtn_key_ne c _ _ (Or.inr (by decide))),
        classLookup_cons_ne _ _ _ _ _ _ (vtn_key_ne c _ _ (Or.inl hcne))]
  have k2 : classLookup (setattrC (setattrC cs .vtnService "_create_message" v1)
      .vtnService "_parse_message" v2) c "_parse_message"
      = classLookup cs c "_parse_message" := by
    rw [setattrC, setattrC,
        classLookup_cons_ne _ _ _ _ _ _ (vtn_key_ne c _ _ (Or.inl hcne)),
        classLookup_cons_ne _ _ _ _ _ _ (vtn_key_ne c _ _ (Or.inl hcne))]
  have b1 : classLookup (setattrC (setattrC cs .vtnService "_create_message" v1)
      .vtnService "_parse_message" v2) .vtnService "_create_message" = some v1 := by
    rw [setattrC, setattrC,
        classLookup_cons_ne _ _ _ _ _ _ (vtn_key_ne .vtnService _ _ (Or.inr (by decide))),
        classLookup_cons_eq]
  have b2 : classLookup (setattrC (setattrC cs .vtnService "_create_message" v1)
      .vtnService "_parse_message" v2) .vtnService "_parse_message" = some v2 := by
    rw [setattrC, classLookup_cons_eq]
  constructor
  · unfold getattrMRO
    rw [k1, hn1, hb]
    exact b1
  · unfold getattrMRO
    rw [k2, hn2, hb]
    exact b2

/-- The five service classes carry no codec attribute of their own in a
class state: the running program only ever patches codec attributes onto
`VTNService` and handler names onto service classes. -/
def noServiceCodec (cs : ClassState) : Prop :=
  ∀ c ∈ serviceClasses, classLookup cs c "_create_message" = none ∧
    classLookup cs c "_parse_message" = none

instance (cs : ClassState) : Decidable (noServiceCodec cs) := by
  unfold noServiceCodec
  infer_instance

/-- A successful `__init__` preserves `noServiceCodec`: it only patches
attributes onto `VTNService`. -/
theorem serverInit_noServiceCodec (vtnId : String) (cert key pp : Option String)
    (fl : Option Nat) (fs : String → Option String) (cfp : String → String)
    (sn : PyClass → String) (cs : ClassState) (r : InitResult)
    (hclean : noServiceCodec cs)
    (h : serverInit vtnId cert key pp fl fs cfp sn cs = .ok r) :
    noServiceCodec r.classState := by
  obtain ⟨hcs, -, -, -⟩ := serverInit_ok_inv vtnId cert key pp fl fs cfp sn cs r h
  intro c hcmem
  obtain ⟨hn1, hn2⟩ := hclean c hcmem
  have hcne : c ≠ .vtnService := by fin_cases hcmem <;> decide
  constructor
  · rw [hcs, setattrC, setattrC,
        classLookup_cons_ne _ _ _ _ _ _ (vtn_key_ne c _ _ (Or.inl hcne)),
        classLookup_cons_ne _ _ _ _ _ _ (vtn_key_ne c _ _ (Or.inl hcne))]
    exact hn1
  · rw [hcs, setattrC, setattrC,
        classLookup_cons_ne _ _ _ _ _ _ (vtn_key_ne c _ _ (Or.inl hcne)),
        classLookup_cons_ne _ _ _ _ _ _ (vtn_key_ne c _ _ (Or.inl hcne))]
    exact hn2

/-- A concrete unsigned construction over the pristine class state. -/
def exInitPlain : InitResult :=
  (serverInit "vtn1" none none none none noFs exCfp exSn
    initialClassState).toOption.getD default

/-- A concrete signed construction: certificate and key files are present in
`exFs`. -/
def exInitSigned : InitResult :=
  (serverInit "vtn2" (some "cert.pem") (some "key.pem") (some "pw") (some 9)
    exFs exCfp exSn initialClassState).toOption.getD default

/-- A second construction in the same process, running after `exInitSigned`
on the class state that construction left behind. -/
def exInitSecond : InitResult :=
  (serverInit "vtn3" none none none none noFs exCfp exSn
    exInitSigned.classState).toOption.getD default

/-- A concrete construction given a certificate path but no key, over a file
system with no readable files at all. -/
def exInitLoneCert : InitResult :=
  (serverInit "vtn1" (some "cert.pem") none none none noFs exCfp exSn
    initialClassState).toOption.getD default

/-- C3 counterexample: constructing with a certificate path and `key = None`
does not fail — it returns normally (even though no file is readable), emits
no fingerprint, and registers all five routes, so the server can begin
accepting traffic. -/
theorem initLoneCertSucceeds :
    serverInit "vtn1" (some "cert.pem") none none none noFs exCfp exSn
      initialClassState = .ok exInitLoneCert ∧
    exInitLoneCert.printed = none ∧
    exInitLoneCert.reads = [] ∧
    exInitLoneCert.routes.length = 5 := by
  exact ⟨rfl, rfl, rfl, rfl⟩

/-- C3 amended: if exactly one of certificate and key is supplied (the other
is `None`), construction succeeds with no error of any kind: the signing
block is skipped (nothing printed, no file read), the codec partial receives
the lone argument unread, and all five routes are registered. -/
theorem initLoneCredentialTolerated (vtnId : String) (cert key pp : Option String)
    (fl : Option Nat) (fs : String → Option String) (cfp : String → String)
    (sn : PyClass → String) (cs : ClassState)
    (h : (cert ≠ none ∧ key = none) ∨ (cert = none ∧ key ≠ none)) :
    ∃ r, serverInit vtnId cert key pp fl fs cfp sn cs = .ok r ∧
      r.printed = none ∧ r.reads = [] ∧
      r.installedCreate = ⟨cert, key, pp⟩ ∧ r.routes.length = 5 := by
  have hc : (truthy cert && truthy key) = false := by
    rcases h with ⟨-, hk⟩ | ⟨hcrt, -⟩
    · subst hk; simp [truthy]
    · subst hcrt; simp [truthy]
  have hcred : readCreds cert key fs = .ok none := by
    unfold readCreds
    rw [hc]
    simp
  unfold serverInit
  rw [hcred]
  exact ⟨_, rfl, rfl, rfl, rfl, rfl⟩

/-- Witness for the amended C3 at `cert = some "cert.pem"`, `key = none`. -/
theorem initLoneCredentialTolerated_witness :
    ((some "cert.pem" ≠ (none : Option String) ∧ (none : Option String) = none) ∨
      (some "cert.pem" = (none : Option String) ∧ (none : Option String) ≠ none)) ∧
    (∃ r, serverInit "vtn1" (some "cert.pem") none none none noFs exCfp exSn
        initialClassState = .ok r ∧
      r.printed = none ∧ r.reads = [] ∧
      r.installedCreate = ⟨some "cert.pem", none, none⟩ ∧ r.routes.length = 5) :=
  ⟨by simp, initLoneCredentialTolerated "vtn1" (some "cert.pem") none none none
    noFs exCfp exSn initialClassState (by simp)⟩

/-- C5: a successful construction prints a certificate fingerprint exactly
when both `cert` and `key` are supplied (truthy); in that case the
certificate file is among the files read and the printed fingerprint is
derived from its contents; in the complementary case nothing is printed, no
file is read and the codec partial keeps the raw arguments. In either case
the two codec partials are installed on `VTNService` — the emission is a
side effect only. -/
theorem initFingerprintEmission (vtnId : String) (cert key pp : Option String)
    (fl : Option Nat) (fs : String → Option String) (cfp : String → String)
    (sn : PyClass → String) (cs : ClassState) (r : InitResult)
    (h : serverInit vtnId cert key pp fl fs cfp sn cs = .ok r) :
    (r.printed.isSome = true ↔ (truthy cert && truthy key) = true) ∧
    ((truthy cert && truthy key) = true → ∀ cc, fs (cert.getD "") = some cc →
      r.printed = some (cfp cc) ∧ cert.getD "" ∈ r.reads) ∧
    ((truthy cert && truthy key) = false →
      r.printed = none ∧ r.reads = [] ∧ r.installedCreate = ⟨cert, key, pp⟩) ∧
    classLookup r.classState .vtnService "_create_message"
      = some (.createBinding r.installedCreate) ∧
    classLookup r.classState .vtnService "_parse_message"
      = some (.parseBinding r.installedParse) := by
  obtain ⟨hcs, -, -, -⟩ := serverInit_ok_inv vtnId cert key pp fl fs cfp sn cs r h
  obtain ⟨cr, hcred, hp, hrd, hic, -⟩ :=
    serverInit_ok_credRead vtnId cert key pp fl fs cfp sn cs r h
  have hb1 : classLookup r.classState .vtnService "_create_message"
      = some (.createBinding r.installedCreate) := by
    rw [hcs, setattrC, setattrC,
        classLookup_cons_ne _ _ _ _ _ _ (vtn_key_ne _ _ _ (Or.inr (by decide))),
        classLookup_cons_eq]
  have hb2 : classLookup r.classState .vtnService "_parse_message"
      = some (.parseBinding r.installedParse) := by
    rw [hcs, setattrC, classLookup_cons_eq]
  cases cr with
  | some p =>
    obtain ⟨hc, hfc, -⟩ := readCreds_ok_some cert key fs p hcred
    refine ⟨?_, ?_, ?_, hb1, hb2⟩
    · rw [hp, hc]
      simp
    · intro _ cc hcc
      rw [hfc] at hcc
      simp only [Option.some.injEq] at hcc
      subst hcc
      rw [hp, hrd]
      simp
    · intro hfalse
      rw [hc] at hfalse
      cases hfalse
  | none =>
    have hc := readCreds_ok_none cert key fs hcred
    refine ⟨?_, ?_, ?_, hb1, hb2⟩
    · rw [hp, hc]
      simp
    · intro htrue
      rw [hc] at htrue
      cases htrue
    · intro _
      exact ⟨by rw [hp]; rfl, by rw [hrd], hic⟩

/-- Witness for C5 at the concrete signed construction: both files present,
the fingerprint of the certificate contents is printed and the certificate
path was read. -/
theorem initFingerprintEmission_witness :
    serverInit "vtn2" (some "cert.pem") (some "key.pem") (some "pw") (some 9)
      exFs exCfp exSn initialClassState = .ok exInitSigned ∧
    exInitSigned.printed.isSome = true ∧
    exInitSigned.printed = some (exCfp "CERTPEM") ∧
    "cert.pem" ∈ exInitSigned.reads ∧
    classLookup exInitSigned.classState .vtnService "_create_message"
      = some (.createBinding exInitSigned.installedCreate) := by
  have h : serverInit "vtn2" (some "cert.pem") (some "key.pem") (some "pw")
      (some 9) exFs exCfp exSn initialClassState = .ok exInitSigned := rfl
  have h2 := initFingerprintEmission "vtn2" (some "cert.pem") (some "key.pem")
    (some "pw") (some 9) exFs exCfp exSn initialClassState exInitSigned h
  have h3 := h2.2.1 (by decide) "CERTPEM" (by decide)
  exact ⟨h, h2.1.mpr (by decide), h3.1, h3.2, h2.2.2.2.1⟩

/-- C8: a successful construction registers exactly five POST routes, one
per service area in services-dict order, each at the path
`/OpenADR2/Simple/2.0b/` followed by the area's service name. -/
theorem initRegistersFiveRoutes (vtnId : String) (cert key pp : Option String)
    (fl : Option Nat) (fs : String → Option String) (cfp : String → String)
    (sn : PyClass → String) (cs : ClassState) (r : InitResult)
    (h : serverInit vtnId cert key pp fl fs cfp sn cs = .ok r) :
    r.routes =
      [("POST", "/OpenADR2/Simple/2.0b/" ++ sn .event, .event),
       ("POST", "/OpenADR2/Simple/2.0b/" ++ sn .report, .report),
       ("POST", "/OpenADR2/Simple/2.0b/" ++ sn .poll, .poll),
       ("POST", "/OpenADR2/Simple/2.0b/" ++ sn .opt, .opt),
       ("POST", "/OpenADR2/Simple/2.0b/" ++ sn .registration, .registration)] ∧
    r.routes.length = 5 ∧
    r.routes.map (fun t => t.2.2) = serviceClasses := by
  obtain ⟨-, hr, -, -⟩ := serverInit_ok_inv vtnId cert key pp fl fs cfp sn cs r h
  rw [hr]
  exact ⟨rfl, rfl, rfl⟩

/-- Witness for C8 at a concrete unsigned construction. -/
theorem initRegistersFiveRoutes_witness :
    serverInit "vtn1" none none none none noFs exCfp exSn initialClassState
      = .ok exInitPlain ∧
    exInitPlain.routes =
      [("POST", "/OpenADR2/Simple/2.0b/EiEvent", .event),
       ("POST", "/OpenADR2/Simple/2.0b/EiReport", .report),
       ("POST", "/OpenADR2/Simple/2.0b/OadrPoll", .poll),
       ("POST", "/OpenADR2/Simple/2.0b/EiOpt", .opt),
       ("POST", "/OpenADR2/Simple/2.0b/EiRegisterParty", .registration)] ∧
    exInitPlain.routes.length = 5 ∧
    exInitPlain.routes.map (fun t => t.2.2) = serviceClasses := by
  have h : serverInit "vtn1" none none none none noFs exCfp exSn
      initialClassState = .ok exInitPlain := rfl
  have h2 := initRegistersFiveRoutes "vtn1" none none none none noFs exCfp
    exSn initialClassState exInitPlain h
  exact ⟨h, by rw [h2.1]; rfl, h2.2.1, h2.2.2⟩

/-- C7: after a successful construction (starting, as the running program
does, from a class state where no service class carries a codec attribute of
its own), every one of the five service classes resolves the SAME single
sign-and-encode partial and the SAME single decode-and-verify partial, both
found once on the common `VTNService` base. -/
theorem codecSharedAcrossServices (vtnId : String) (cert key pp : Option String)
    (fl : Option Nat) (fs : String → Option String) (cfp : String → String)
    (sn : PyClass → String) (cs : ClassState) (r : InitResult)
    (hclean : noServiceCodec cs)
    (h : serverInit vtnId cert key pp fl fs cfp sn cs = .ok r) :
    (∀ c ∈ serviceClasses,
      getattrMRO r.classState c "_create_message"
        = some (.createBinding r.installedCreate) ∧
      getattrMRO r.classState c "_parse_message"
        = some (.parseBinding r.installedParse)) ∧
    classLookup r.classState .vtnService "_create_message"
      = some (.createBinding r.installedCreate) ∧
    classLookup r.classState .vtnService "_parse_message"
      = some (.parseBinding r.installedParse) := by
  obtain ⟨hcs, -, -, -⟩ := serverInit_ok_inv vtnId cert key pp fl fs cfp sn cs r h
  refine ⟨?_, ?_, ?_⟩
  · intro c hcmem
    obtain ⟨hn1, hn2⟩ := hclean c hcmem
    have hcne : c ≠ .vtnService := by fin_cases hcmem <;> decide
    have hb : pyBase c = some .vtnService := by fin_cases hcmem <;> rfl
    rw [hcs]
    exact codec_resolves_to_base cs c _ _ hb hcne hn1 hn2
  · rw [hcs, setattrC, setattrC,
        classLookup_cons_ne _ _ _ _ _ _ (vtn_key_ne _ _ _ (Or.inr (by decide))),
        classLookup_cons_eq]
  · rw [hcs, setattrC, classLookup_cons_eq]

/-- Witness for C7 at the concrete signed construction, specialised to the
event service class. -/
theorem codecSharedAcrossServices_witness :
    noServiceCodec initialClassState ∧
    serverInit "vtn2" (some "cert.pem") (some "key.pem") (some "pw") (some 9)
      exFs exCfp exSn initialClassState = .ok exInitSigned ∧
    getattrMRO exInitSigned.classState .event "_create_message"
      = some (.createBinding exInitSigned.installedCreate) ∧
    getattrMRO exInitSigned.classState .event "_parse_message"
      = some (.parseBinding exInitSigned.installedParse) ∧
    classLookup exInitSigned.classState .vtnService "_create_message"
      = some (.createBinding exInitSigned.installedCreate) := by
  have hclean : noServiceCodec initialClassState := by decide
  have h : serverInit "vtn2" (some "cert.pem") (some "key.pem") (some "pw")
      (some 9) exFs exCfp exSn initialClassState = .ok exInitSigned := rfl
  have h2 := codecSharedAcrossServices "vtn2" (some "cert.pem") (some "key.pem")
    (some "pw") (some 9) exFs exCfp exSn initialClassState exInitSigned hclean h
  have h3 := h2.1 .event (by decide)
  exact ⟨hclean, h, h3.1, h3.2, h2.2.1⟩

/-- C10: constructing a second server overwrites the codec partials on the
shared `VTNService` base: afterwards every service class — the classes the
first server's services are instances of as much as the second's — resolves
the second construction's bindings, and whenever those differ from the first
construction's, the first server's signing context is observed nowhere. -/
theorem secondServerCodecWins (v1 : String) (c1 k1 p1 : Option String)
    (fl1 : Option Nat) (fs1 : String → Option String) (cfp1 : String → String)
    (sn1 : PyClass → String) (v2 : String) (c2 k2 p2 : Option String)
    (fl2 : Option Nat) (fs2 : String → Option String) (cfp2 : String → String)
    (sn2 : PyClass → String) (cs : ClassState) (r1 r2 : InitResult)
    (hclean : noServiceCodec cs)
    (h1 : serverInit v1 c1 k1 p1 fl1 fs1 cfp1 sn1 cs = .ok r1)
    (h2 : serverInit v2 c2 k2 p2 fl2 fs2 cfp2 sn2 r1.classState = .ok r2) :
    ∀ c ∈ serviceClasses,
      getattrMRO r2.classState c "_create_message"
        = some (.createBinding r2.installedCreate) ∧
      getattrMRO r2.classState c "_parse_message"
        = some (.parseBinding r2.installedParse) ∧
      (r2.installedCreate ≠ r1.installedCreate →
        getattrMRO r2.classState c "_create_message"
          ≠ some (.createBinding r1.installedCreate)) := by
  have hclean1 : noServiceCodec r1.classState :=
    serverInit_noServiceCodec v1 c1 k1 p1 fl1 fs1 cfp1 sn1 cs r1 hclean h1
  obtain ⟨hcs2, -, -, -⟩ :=
    serverInit_ok_inv v2 c2 k2 p2 fl2 fs2 cfp2 sn2 r1.classState r2 h2
  intro c hcmem
  obtain ⟨hn1, hn2⟩ := hclean1 c hcmem
  have hcne : c ≠ .vtnService := by fin_cases hcmem <;> decide
  have hb : pyBase c = some .vtnService := by fin_cases hcmem <;> rfl
  have hres := codec_resolves_to_base r1.classState c
    (PyVal.createBinding r2.installedCreate)
    (PyVal.parseBinding r2.installedParse) hb hcne hn1 hn2
  rw [hcs2]
  refine ⟨hres.1, hres.2, ?_⟩
  intro hne heq
  rw [hres.1] at heq
  simp only [Option.some.injEq, PyVal.createBinding.injEq] at heq
  exact hne heq

/-- Witness for C10: the signed construction followed by an unsigned one in
the same process; afterwards the event service class resolves the unsigned
codec binding and no longer the signed one. -/
theorem secondServerCodecWins_witness :
    noServiceCodec initialClassState ∧
    serverInit "vtn2" (some "cert.pem") (some "key.pem") (some "pw") (some 9)
      exFs exCfp exSn initialClassState = .ok exInitSigned ∧
    serverInit "vtn3" none none none none noFs exCfp exSn
      exInitSigned.classState = .ok exInitSecond ∧
    getattrMRO exInitSecond.classState .event "_create_message"
      = some (.createBinding exInitSecond.installedCreate) ∧
    exInitSecond.installedCreate ≠ exInitSigned.installedCreate ∧
    getattrMRO exInitSecond.classState .event "_create_message"
      ≠ some (.createBinding exInitSigned.installedCreate) := by
  have hclean : noServiceCodec initialClassState := by decide
  have h1 : serverInit "vtn2" (some "cert.pem") (some "key.pem") (some "pw")
      (some 9) exFs exCfp exSn initialClassState = .ok exInitSigned := rfl
  have h2 : serverInit "vtn3" none none none none noFs exCfp exSn
      exInitSigned.classState = .ok exInitSecond := rfl
  have h := secondServerCodecWins "vtn2" (some "cert.pem") (some "key.pem")
    (some "pw") (some 9) exFs exCfp exSn "vtn3" none none none none noFs
    exCfp exSn initialClassState exInitSigned exInitSecond hclean h1 h2
    .event (by decide)
  exact ⟨hclean, h1, h2, h.1, by decide, h.2.2 (by decide)⟩

/-- C4 counterexample: two servers constructed in one process share the
service classes (their `services` dicts instantiate the same classes);
before any binding, the second server's poll service resolves the built-in
default for `on_poll`, and after `add_handler("on_poll", 7)` is called
through the first server it resolves handler 7 instead — the other server's
binding did not stay unchanged. -/
theorem addHandlerLeaksAcrossInstances :
    exInitSigned.server.services = exInitSecond.server.services ∧
    dispatch exInitSecond.classState .poll "on_poll"
      = some (.builtin "on_poll") ∧
    (add_handler exInitSecond.classState "on_poll" 7).1 = none ∧
    dispatch (add_handler exInitSecond.classState "on_poll" 7).2 .poll "on_poll"
      = some (.user 7) ∧
    dispatch (add_handler exInitSecond.classState "on_poll" 7).2 .poll "on_poll"
      ≠ dispatch exInitSecond.classState .poll "on_poll" := by
  exact ⟨rfl, rfl, rfl, rfl, by decide⟩

/-- C4 amended: handler bindings live on the shared service classes, so when
two servers exist in one process, a successful `add_handler` through either
server changes the binding that BOTH servers' service instances resolve —
afterwards dispatch through the shared owning class yields the new handler. -/
theorem addHandlerSharedAcrossInstances (v1 : String) (c1 k1 p1 : Option String)
    (fl1 : Option Nat) (fs1 : String → Option String) (cfp1 : String → String)
    (sn1 : PyClass → String) (v2 : String) (c2 k2 p2 : Option String)
    (fl2 : Option Nat) (fs2 : String → Option String) (cfp2 : String → String)
    (sn2 : PyClass → String) (cs : ClassState) (r1 r2 : InitResult)
    (nm : String) (c : PyClass) (f : Handler)
    (h1 : serverInit v1 c1 k1 p1 fl1 fs1 cfp1 sn1 cs = .ok r1)
    (h2 : serverInit v2 c2 k2 p2 fl2 fs2 cfp2 sn2 r1.classState = .ok r2)
    (hm : lookupMap nm = some c) :
    r1.server.services = r2.server.services ∧
    (add_handler r2.classState nm f).1 = none ∧
    dispatch (add_handler r2.classState nm f).2 c nm = some (.user f) := by
  obtain ⟨-, -, hs1, -⟩ := serverInit_ok_inv v1 c1 k1 p1 fl1 fs1 cfp1 sn1 cs r1 h1
  obtain ⟨-, -, hs2, -⟩ :=
    serverInit_ok_inv v2 c2 k2 p2 fl2 fs2 cfp2 sn2 r1.classState r2 h2
  have hadd : add_handler r2.classState nm f
      = (none, setattrC r2.classState c nm (.smethod f)) := by
    simp [add_handler, hm]
  rw [hadd, hs1, hs2]
  refine ⟨rfl, rfl, ?_⟩
  simp [dispatch, getattrMRO, setattrC, classLookup_cons_eq, accessValue]

/-- Witness for the amended C4 at the concrete two-server scenario. -/
theorem addHandlerSharedAcrossInstances_witness :
    serverInit "vtn2" (some "cert.pem") (some "key.pem") (some "pw") (some 9)
      exFs exCfp exSn initialClassState = .ok exInitSigned ∧
    serverInit "vtn3" none none none none noFs exCfp exSn
      exInitSigned.classState = .ok exInitSecond ∧
    lookupMap "on_poll" = some PyClass.poll ∧
    exInitSigned.server.services = exInitSecond.server.services ∧
    (add_handler exInitSecond.classState "on_poll" 7).1 = none ∧
    dispatch (add_handler exInitSecond.classState "on_poll" 7).2 .poll "on_poll"
      = some (.user 7) := by
  have h1 : serverInit "vtn2" (some "cert.pem") (some "key.pem") (some "pw")
      (some 9) exFs exCfp exSn initialClassState = .ok exInitSigned := rfl
  have h2 : serverInit "vtn3" none none none none noFs exCfp exSn
      exInitSigned.classState = .ok exInitSecond := rfl
  have h := addHandlerSharedAcrossInstances "vtn2" (some "cert.pem")
    (some "key.pem") (some "pw") (some 9) exFs exCfp exSn "vtn3" none none
    none none noFs exCfp exSn initialClassState exInitSigned exInitSecond
    "on_poll" .poll 7 h1 h2 (by decide)
  exact ⟨h1, h2, by decide, h.1, h.2.1, h.2.2⟩

/-- C6 counterexample: a second `add_handler` call for the same catalogue
name is accepted — it raises nothing and replaces the binding again, so the
extension point is not mutable at most once. -/
theorem addHandlerRebindAccepted :
    (add_handler (add_handler initialClassState "on_poll" 5).2 "on_poll" 6).1
      = none ∧
    dispatch (add_handler initialClassState "on_poll" 5).2 .poll "on_poll"
      = some (.user 5) ∧
    dispatch (add_handler (add_handler initialClassState "on_poll" 5).2
      "on_poll" 6).2 .poll "on_poll" = some (.user 6) := by
  exact ⟨rfl, rfl, rfl⟩

/-- C6 amended: for every catalogue name, repeated `add_handler` calls are
all permitted: each succeeds and each replaces the binding, so after binding
`f` and then `g` the extension point dispatches `g` (last call wins). -/
theorem addHandlerLastWins (cs : ClassState) (nm : String) (c : PyClass)
    (f g : Handler) (hm : lookupMap nm = some c) :
    (add_handler (add_handler cs nm f).2 nm g).1 = none ∧
    dispatch (add_handler (add_handler cs nm f).2 nm g).2 c nm
      = some (.user g) := by
  have hadd1 : add_handler cs nm f = (none, setattrC cs c nm (.smethod f)) := by
    simp [add_handler, hm]
  have hadd2 : add_handler (setattrC cs c nm (.smethod f)) nm g
      = (none, setattrC (setattrC cs c nm (.smethod f)) c nm (.smethod g)) := by
    simp [add_handler, hm]
  rw [hadd1, hadd2]
  refine ⟨rfl, ?_⟩
  simp [dispatch, getattrMRO, setattrC, classLookup_cons_eq, accessValue]

/-- Witness for the amended C6: binding `on_poll` to 5 then 6 dispatches 6. -/
theorem addHandlerLastWins_witness :
    lookupMap "on_poll" = some PyClass.poll ∧
    (add_handler (add_handler initialClassState "on_poll" 5).2 "on_poll" 6).1
      = none ∧
    dispatch (add_handler (add_handler initialClassState "on_poll" 5).2
      "on_poll" 6).2 .poll "on_poll" = some (.user 6) := by
  have h := addHandlerLastWins initialClassState "on_poll" .poll 5 6 (by decide)
  exact ⟨by decide, h.1, h.2⟩
